import Mathlib

/-!
Shallow embedding of the EBS snapshot cleanup job (`main.py`) and proofs of
its retention-policy properties.

The cloud collaborators are modelled as explicit inputs:
* `lookup : VolumeLookupResult` — the outcome of `ec2.describe_volumes` for a volume;
* `del : String → DeleteOutcome` — the outcome of `ec2.delete_snapshot` per snapshot id;
* `fetch : Except String (List Snapshot)` — the outcome of `describe_snapshots`.

Timestamps are integers in seconds; `timedelta(days=d)` is `d * 86400`.
The per-snapshot loop of `process_volume_snapshots` is the recursive
function `walk`; besides the four counters of the source it records a
trace: the retention decision per snapshot, the list of `delete_snapshot`
invocations, counters for the two branches the source only logs
(too-young, failed-other), and the final value of `remaining`.
-/

namespace Ebs

/-- One AWS tag, as the dicts `\x7b'Key': …, 'Value': …\x7d` in API responses. -/
structure Tag where
  Key : String
  Value : String
deriving Repr, DecidableEq

/-- A snapshot record as returned by `describe_snapshots`: the `VolumeId` and
`Tags` keys may be absent (`snapshot.get('VolumeId', 'unknown')`,
`'Tags' not in snapshot`). `StartTime` is a timestamp in seconds. -/
structure Snapshot where
  SnapshotId : String
  VolumeId : Option String
  StartTime : Int
  Tags : Option (List Tag)
deriving Repr, DecidableEq

instance : Inhabited Snapshot := ⟨⟨"", none, 0, none⟩⟩

/-- The environment-variable configuration (module-level constants of `main.py`). -/
structure Config where
  RETENTION_DAYS : Int
  MIN_SNAPSHOTS_TO_KEEP : Int
  DRY_RUN : Bool
  PROTECTED_TAG_KEY : String
  PROTECTED_TAG_VALUE : String
  CRITICAL_VOLUME_TAG_KEY : String
  CRITICAL_VOLUME_TAG_VALUE : String
deriving Repr, DecidableEq

/-- Python `str.lower()` (ASCII case folding), used for the case-insensitive
tag-value comparisons of `main.py`. -/
def lower (s : String) : String := ⟨s.data.map Char.toLower⟩

/-- Retention decision for one snapshot (spec §3 `RetentionDecision`).
`delete` marks Delete-eligibility: the snapshot reached the deletion branch
of the loop (lines 140–153), whatever the outcome of the API call. -/
inductive Decision where
  | delete
  | keepProtectedTag
  | keepCritical
  | keepMinCount
  | keepTooYoung
deriving Repr, DecidableEq, BEq

/-- Outcome of the collaborator call `ec2.describe_volumes(VolumeIds=[vid])`
as observed by `is_critical_volume` (lines 174–199): a volume with optional
tags, an empty/`Volumes`-less response, a `ClientError` containing
`InvalidVolume.NotFound`, or any other `ClientError`. -/
inductive VolumeLookupResult where
  | found (tags : Option (List Tag))
  | empty
  | notFoundError
  | otherError
deriving Repr, DecidableEq

/-- Outcome of the collaborator call `ec2.delete_snapshot(SnapshotId=sid)`:
success, a `ClientError` containing `InvalidSnapshot.InUse`, or any other
`ClientError` (lines 143, 148–153). -/
inductive DeleteOutcome where
  | success
  | inUseError
  | otherError
deriving Repr, DecidableEq

/-- Embeds `is_protected_snapshot` (lines 161–170): the snapshot has a tag whose key
equals `PROTECTED_TAG_KEY` and whose value matches `PROTECTED_TAG_VALUE`
case-insensitively. -/
def is_protected_snapshot (cfg : Config) (snapshot : Snapshot) : Bool :=
  match snapshot.Tags with
  | none => false
  | some tags => tags.any (fun tag =>
      tag.Key == cfg.PROTECTED_TAG_KEY &&
      lower tag.Value == lower cfg.PROTECTED_TAG_VALUE)

/-- Embeds `is_critical_volume` (lines 172–199) on the lookup outcome: an empty
result or a not-found error is non-critical; any other `ClientError` is
critical (fail safe); otherwise the volume's tags are matched against
`CRITICAL_VOLUME_TAG_KEY`/`CRITICAL_VOLUME_TAG_VALUE` (value
case-insensitive). -/
def is_critical_volume (cfg : Config) (lookup : VolumeLookupResult) : Bool :=
  match lookup with
  | .found none => false
  | .found (some tags) => tags.any (fun tag =>
      tag.Key == cfg.CRITICAL_VOLUME_TAG_KEY &&
      lower tag.Value == lower cfg.CRITICAL_VOLUME_TAG_VALUE)
  | .empty => false
  | .notFoundError => false
  | .otherError => true

/-- State produced by the per-snapshot loop of `process_volume_snapshots`
(lines 118–157): the counters `deleted`, `protected` (named `protectedCnt`,
`protected` being a Lean keyword), `too_few` (`tooFew`), plus the trace:
per-snapshot decisions in visit order, the `delete_snapshot` invocations in
order, counters for the two log-only branches, and the final `remaining`. -/
structure WalkResult where
  deleted : Nat
  protectedCnt : Nat
  tooFew : Nat
  tooYoung : Nat
  failedOther : Nat
  decisions : List Decision
  calls : List String
  finalRemaining : Int
deriving Repr, DecidableEq

/-- The `for snapshot in snapshots` loop of `process_volume_snapshots`
(lines 121–157), snapshots already sorted oldest first by the caller.
Branch order as in the source: min-count check (`continue` skips the
decrement), protected-tag check, age check with the deletion attempt
(no API call in dry run; on `InvalidSnapshot.InUse` count as protected;
on any other `ClientError` count nothing), else too-young; `remaining`
is decremented at the end of the body, which the first branch skips. -/
def walk (cfg : Config) (cutoff_date : Int) (del : String → DeleteOutcome)
    (remaining : Int) : List Snapshot → WalkResult
  | [] => ⟨0, 0, 0, 0, 0, [], [], remaining⟩
  | s :: rest =>
    if remaining ≤ cfg.MIN_SNAPSHOTS_TO_KEEP then
      let r := walk cfg cutoff_date del remaining rest
      { r with tooFew := r.tooFew + 1,
               decisions := Decision.keepMinCount :: r.decisions }
    else if is_protected_snapshot cfg s then
      let r := walk cfg cutoff_date del (remaining - 1) rest
      { r with protectedCnt := r.protectedCnt + 1,
               decisions := Decision.keepProtectedTag :: r.decisions }
    else if s.StartTime < cutoff_date then
      let r := walk cfg cutoff_date del (remaining - 1) rest
      if cfg.DRY_RUN then
        { r with deleted := r.deleted + 1,
                 decisions := Decision.delete :: r.decisions }
      else
        match del s.SnapshotId with
        | DeleteOutcome.success =>
          { r with deleted := r.deleted + 1,
                   decisions := Decision.delete :: r.decisions,
                   calls := s.SnapshotId :: r.calls }
        | DeleteOutcome.inUseError =>
          { r with protectedCnt := r.protectedCnt + 1,
                   decisions := Decision.delete :: r.decisions,
                   calls := s.SnapshotId :: r.calls }
        | DeleteOutcome.otherError =>
          { r with failedOther := r.failedOther + 1,
                   decisions := Decision.delete :: r.decisions,
                   calls := s.SnapshotId :: r.calls }
    else
      let r := walk cfg cutoff_date del (remaining - 1) rest
      { r with tooYoung := r.tooYoung + 1,
               decisions := Decision.keepTooYoung :: r.decisions }

/-- Result of `process_volume_snapshots` for one volume: the four returned
counters plus the trace fields of the loop. -/
structure VolumeResult where
  deleted : Nat
  protectedCnt : Nat
  critical : Nat
  tooFew : Nat
  tooYoung : Nat
  failedOther : Nat
  decisions : List Decision
  calls : List String
deriving Repr, DecidableEq

/-- Embeds `process_volume_snapshots` (lines 95–159): critical-volume short-circuit
(skipped for the sentinel id `"unknown"`), minimum-count short-circuit, then
the per-snapshot loop with `cutoff_date = now - timedelta(days=RETENTION_DAYS)`
and `remaining` initialised to the group's size. -/
def process_volume_snapshots (cfg : Config) (now : Int)
    (lookup : VolumeLookupResult) (del : String → DeleteOutcome)
    (volume_id : String) (snapshots : List Snapshot) : VolumeResult :=
  if volume_id != "unknown" && is_critical_volume cfg lookup then
    { deleted := 0, protectedCnt := 0, critical := snapshots.length,
      tooFew := 0, tooYoung := 0, failedOther := 0,
      decisions := snapshots.map (fun _ => Decision.keepCritical), calls := [] }
  else if (snapshots.length : Int) ≤ cfg.MIN_SNAPSHOTS_TO_KEEP then
    { deleted := 0, protectedCnt := 0, critical := 0,
      tooFew := snapshots.length, tooYoung := 0, failedOther := 0,
      decisions := snapshots.map (fun _ => Decision.keepMinCount), calls := [] }
  else
    let cutoff_date := now - cfg.RETENTION_DAYS * 86400
    let w := walk cfg cutoff_date del (snapshots.length : Int) snapshots
    { deleted := w.deleted, protectedCnt := w.protectedCnt, critical := 0,
      tooFew := w.tooFew, tooYoung := w.tooYoung, failedOther := w.failedOther,
      decisions := w.decisions, calls := w.calls }

/-- One step of `group_by_volume`'s dict build: append the snapshot to the
entry for its volume id, or add a new entry at the end (dict insertion order). -/
def addToGroup : List (String × List Snapshot) → String → Snapshot →
    List (String × List Snapshot)
  | [], vid, s => [(vid, [s])]
  | (k, ss) :: rest, vid, s =>
    if k == vid then (k, ss ++ [s]) :: rest
    else (k, ss) :: addToGroup rest vid s

/-- Embeds `group_by_volume` (lines 83–93): group snapshots by
`snapshot.get('VolumeId', 'unknown')`, preserving insertion order. -/
def group_by_volume (snapshots : List Snapshot) : List (String × List Snapshot) :=
  snapshots.foldl (fun acc s => addToGroup acc (s.VolumeId.getD "unknown") s) []

/-- Insert a snapshot after every strictly older one (and after every equally
old one already present), keeping the list sorted by `StartTime`. -/
def insertByStartTime (s : Snapshot) : List Snapshot → List Snapshot
  | [] => [s]
  | t :: rest =>
    if t.StartTime < s.StartTime then t :: insertByStartTime s rest
    else s :: t :: rest

/-- Embeds `snaps.sort(key=lambda x: x['StartTime'])` (line 52): stable sort by
creation time, oldest first (insertion sort; Python's sort is stable and
only the ordering matters to the caller). -/
def sortByStartTime (snaps : List Snapshot) : List Snapshot :=
  snaps.foldr insertByStartTime []

/-- The aggregate counters of `lambda_handler`'s volume loop (lines 45–60),
extended with the two uncounted-branch totals of the trace. -/
structure RunTotals where
  deleted : Nat
  protectedCnt : Nat
  critical : Nat
  tooFew : Nat
  tooYoung : Nat
  failedOther : Nat
deriving Repr, DecidableEq

/-- Fold one volume's result into the aggregate counters (lines 57–60). -/
def addTotals (t : RunTotals) (r : VolumeResult) : RunTotals :=
  { deleted := t.deleted + r.deleted,
    protectedCnt := t.protectedCnt + r.protectedCnt,
    critical := t.critical + r.critical,
    tooFew := t.tooFew + r.tooFew,
    tooYoung := t.tooYoung + r.tooYoung,
    failedOther := t.failedOther + r.failedOther }

/-- The volume loop of `lambda_handler` (lines 50–60): group the inventory,
sort each group by creation time, process it, and sum the counters. -/
def runTotals (cfg : Config) (now : Int) (del : String → DeleteOutcome)
    (lookup : String → VolumeLookupResult) (snapshots : List Snapshot) : RunTotals :=
  (group_by_volume snapshots).foldl
    (fun acc g => addTotals acc
      (process_volume_snapshots cfg now (lookup g.1) del g.1 (sortByStartTime g.2)))
    ⟨0, 0, 0, 0, 0, 0⟩

/-- The `body` dict of `lambda_handler`'s success result (lines 64–72). -/
structure Body where
  dry_run : Bool
  deleted_snapshots : Nat
  protected_snapshots : Nat
  critical_volume_snapshots : Nat
  too_few_snapshots : Nat
  retention_days : Int
  min_snapshots_per_volume : Int
deriving Repr, DecidableEq

/-- A handler response: `statusCode` plus, on success, the summary body. -/
structure Response where
  statusCode : Nat
  body : Option Body
deriving Repr, DecidableEq

/-- Embeds `lambda_handler` (lines 20–76): a failed inventory fetch aborts with
status 500; otherwise group, process every volume, and return 200 with the
summary body. -/
def lambda_handler (cfg : Config) (now : Int) (del : String → DeleteOutcome)
    (lookup : String → VolumeLookupResult)
    (fetch : Except String (List Snapshot)) : Response :=
  match fetch with
  | .error _ => { statusCode := 500, body := none }
  | .ok snapshots =>
    let t := runTotals cfg now del lookup snapshots
    { statusCode := 200,
      body := some
        { dry_run := cfg.DRY_RUN,
          deleted_snapshots := t.deleted,
          protected_snapshots := t.protectedCnt,
          critical_volume_snapshots := t.critical,
          too_few_snapshots := t.tooFew,
          retention_days := cfg.RETENTION_DAYS,
          min_snapshots_per_volume := cfg.MIN_SNAPSHOTS_TO_KEEP } }

/-- The default configuration of `main.py` (lines 12–18). -/
def defaultConfig : Config :=
  { RETENTION_DAYS := 30, MIN_SNAPSHOTS_TO_KEEP := 3, DRY_RUN := true,
    PROTECTED_TAG_KEY := "ProtectSnapshot", PROTECTED_TAG_VALUE := "true",
    CRITICAL_VOLUME_TAG_KEY := "CriticalVolume", CRITICAL_VOLUME_TAG_VALUE := "true" }

/-! ### Unfolding lemmas for the per-snapshot loop -/

theorem walk_nil (cfg : Config) (c : Int) (del : String → DeleteOutcome) (r : Int) :
    walk cfg c del r [] = ⟨0, 0, 0, 0, 0, [], [], r⟩ := rfl

theorem walk_cons_min (cfg : Config) (c : Int) (del : String → DeleteOutcome)
    (r : Int) (s : Snapshot) (rest : List Snapshot)
    (h : r ≤ cfg.MIN_SNAPSHOTS_TO_KEEP) :
    walk cfg c del r (s :: rest) =
      { walk cfg c del r rest with
        tooFew := (walk cfg c del r rest).tooFew + 1,
        decisions := Decision.keepMinCount :: (walk cfg c del r rest).decisions } := by
  simp only [walk, if_pos h]

theorem walk_cons_protected (cfg : Config) (c : Int) (del : String → DeleteOutcome)
    (r : Int) (s : Snapshot) (rest : List Snapshot)
    (h1 : ¬ r ≤ cfg.MIN_SNAPSHOTS_TO_KEEP) (h2 : is_protected_snapshot cfg s = true) :
    walk cfg c del r (s :: rest) =
      { walk cfg c del (r - 1) rest with
        protectedCnt := (walk cfg c del (r - 1) rest).protectedCnt + 1,
        decisions := Decision.keepProtectedTag :: (walk cfg c del (r - 1) rest).decisions } := by
  simp only [walk, if_neg h1, h2, if_pos trivial, if_true]

theorem walk_cons_dry_delete (cfg : Config) (c : Int) (del : String → DeleteOutcome)
    (r : Int) (s : Snapshot) (rest : List Snapshot)
    (h1 : ¬ r ≤ cfg.MIN_SNAPSHOTS_TO_KEEP) (h2 : is_protected_snapshot cfg s = false)
    (h3 : s.StartTime < c) (h4 : cfg.DRY_RUN = true) :
    walk cfg c del r (s :: rest) =
      { walk cfg c del (r - 1) rest with
        deleted := (walk cfg c del (r - 1) rest).deleted + 1,
        decisions := Decision.delete :: (walk cfg c del (r - 1) rest).decisions } := by
  simp only [walk, if_neg h1, h2, if_pos h3, h4, if_false, if_true, Bool.false_eq_true]

theorem walk_cons_live_success (cfg : Config) (c : Int) (del : String → DeleteOutcome)
    (r : Int) (s : Snapshot) (rest : List Snapshot)
    (h1 : ¬ r ≤ cfg.MIN_SNAPSHOTS_TO_KEEP) (h2 : is_protected_snapshot cfg s = false)
    (h3 : s.StartTime < c) (h4 : cfg.DRY_RUN = false)
    (h5 : del s.SnapshotId = DeleteOutcome.success) :
    walk cfg c del r (s :: rest) =
      { walk cfg c del (r - 1) rest with
        deleted := (walk cfg c del (r - 1) rest).deleted + 1,
        decisions := Decision.delete :: (walk cfg c del (r - 1) rest).decisions,
        calls := s.SnapshotId :: (walk cfg c del (r - 1) rest).calls } := by
  simp only [walk, if_neg h1, h2, if_pos h3, h4, h5, if_false, Bool.false_eq_true]

theorem walk_cons_live_inUse (cfg : Config) (c : Int) (del : String → DeleteOutcome)
    (r : Int) (s : Snapshot) (rest : List Snapshot)
    (h1 : ¬ r ≤ cfg.MIN_SNAPSHOTS_TO_KEEP) (h2 : is_protected_snapshot cfg s = false)
    (h3 : s.StartTime < c) (h4 : cfg.DRY_RUN = false)
    (h5 : del s.SnapshotId = DeleteOutcome.inUseError) :
    walk cfg c del r (s :: rest) =
      { walk cfg c del (r - 1) rest with
        protectedCnt := (walk cfg c del (r - 1) rest).protectedCnt + 1,
        decisions := Decision.delete :: (walk cfg c del (r - 1) rest).decisions,
        calls := s.SnapshotId :: (walk cfg c del (r - 1) rest).calls } := by
  simp only [walk, if_neg h1, h2, if_pos h3, h4, h5, if_false, Bool.false_eq_true]

theorem walk_cons_live_other (cfg : Config) (c : Int) (del : String → DeleteOutcome)
    (r : Int) (s : Snapshot) (rest : List Snapshot)
    (h1 : ¬ r ≤ cfg.MIN_SNAPSHOTS_TO_KEEP) (h2 : is_protected_snapshot cfg s = false)
    (h3 : s.StartTime < c) (h4 : cfg.DRY_RUN = false)
    (h5 : del s.SnapshotId = DeleteOutcome.otherError) :
    walk cfg c del r (s :: rest) =
      { walk cfg c del (r - 1) rest with
        failedOther := (walk cfg c del (r - 1) rest).failedOther + 1,
        decisions := Decision.delete :: (walk cfg c del (r - 1) rest).decisions,
        calls := s.SnapshotId :: (walk cfg c del (r - 1) rest).calls } := by
  simp only [walk, if_neg h1, h2, if_pos h3, h4, h5, if_false, Bool.false_eq_true]

theorem walk_cons_young (cfg : Config) (c : Int) (del : String → DeleteOutcome)
    (r : Int) (s : Snapshot) (rest : List Snapshot)
    (h1 : ¬ r ≤ cfg.MIN_SNAPSHOTS_TO_KEEP) (h2 : is_protected_snapshot cfg s = false)
    (h3 : ¬ s.StartTime < c) :
    walk cfg c del r (s :: rest) =
      { walk cfg c del (r - 1) rest with
        tooYoung := (walk cfg c del (r - 1) rest).tooYoung + 1,
        decisions := Decision.keepTooYoung :: (walk cfg c del (r - 1) rest).decisions } := by
  simp only [walk, if_neg h1, h2, if_neg h3, if_false, Bool.false_eq_true]

/-- In a non-min-count step the head decision is not `keepMinCount`, the rest of
the trace comes from the tail walk at `remaining - 1`, the tail's calls gain at
most the head's id, and `finalRemaining` is the tail's. -/
theorem walk_cons_notMin (cfg : Config) (c : Int) (del : String → DeleteOutcome)
    (r : Int) (s : Snapshot) (rest : List Snapshot)
    (h1 : ¬ r ≤ cfg.MIN_SNAPSHOTS_TO_KEEP) :
    ∃ d0, d0 ≠ Decision.keepMinCount ∧
      (walk cfg c del r (s :: rest)).decisions =
        d0 :: (walk cfg c del (r - 1) rest).decisions ∧
      ((walk cfg c del r (s :: rest)).calls = (walk cfg c del (r - 1) rest).calls ∨
       (walk cfg c del r (s :: rest)).calls =
         s.SnapshotId :: (walk cfg c del (r - 1) rest).calls) ∧
      (walk cfg c del r (s :: rest)).finalRemaining =
        (walk cfg c del (r - 1) rest).finalRemaining := by
  cases h2 : is_protected_snapshot cfg s with
  | true =>
    rw [walk_cons_protected cfg c del r s rest h1 h2]
    exact ⟨Decision.keepProtectedTag, by simp, rfl, Or.inl rfl, rfl⟩
  | false =>
    by_cases h3 : s.StartTime < c
    · cases h4 : cfg.DRY_RUN with
      | true =>
        rw [walk_cons_dry_delete cfg c del r s rest h1 h2 h3 h4]
        exact ⟨Decision.delete, by simp, rfl, Or.inl rfl, rfl⟩
      | false =>
        cases h5 : del s.SnapshotId with
        | success =>
          rw [walk_cons_live_success cfg c del r s rest h1 h2 h3 h4 h5]
          exact ⟨Decision.delete, by simp, rfl, Or.inr rfl, rfl⟩
        | inUseError =>
          rw [walk_cons_live_inUse cfg c del r s rest h1 h2 h3 h4 h5]
          exact ⟨Decision.delete, by simp, rfl, Or.inr rfl, rfl⟩
        | otherError =>
          rw [walk_cons_live_other cfg c del r s rest h1 h2 h3 h4 h5]
          exact ⟨Decision.delete, by simp, rfl, Or.inr rfl, rfl⟩
    · rw [walk_cons_young cfg c del r s rest h1 h2 h3]
      exact ⟨Decision.keepTooYoung, by simp, rfl, Or.inl rfl, rfl⟩

/-- The loop emits exactly one decision per snapshot visited. -/
theorem walk_decisions_length (cfg : Config) (c : Int) (del : String → DeleteOutcome) :
    ∀ (l : List Snapshot) (r : Int),
      (walk cfg c del r l).decisions.length = l.length := by
  intro l
  induction l with
  | nil => intro r; rfl
  | cons s rest ih =>
    intro r
    by_cases h1 : r ≤ cfg.MIN_SNAPSHOTS_TO_KEEP
    · rw [walk_cons_min cfg c del r s rest h1]
      simp [ih r]
    · obtain ⟨d0, -, hdec, -, -⟩ := walk_cons_notMin cfg c del r s rest h1
      rw [hdec]
      simp [ih (r - 1)]

/-- Every visited snapshot is counted in exactly one of the five loop buckets
(`deleted`, `protected`, `too_few`, too-young, failed-other). -/
theorem walk_counter_sum (cfg : Config) (c : Int) (del : String → DeleteOutcome) :
    ∀ (l : List Snapshot) (r : Int),
      (walk cfg c del r l).deleted + (walk cfg c del r l).protectedCnt +
        (walk cfg c del r l).tooFew + (walk cfg c del r l).tooYoung +
        (walk cfg c del r l).failedOther = l.length := by
  intro l
  induction l with
  | nil => intro r; rfl
  | cons s rest ih =>
    intro r
    by_cases h1 : r ≤ cfg.MIN_SNAPSHOTS_TO_KEEP
    · rw [walk_cons_min cfg c del r s rest h1]
      have := ih r
      simp only [List.length_cons]
      omega
    · cases h2 : is_protected_snapshot cfg s with
      | true =>
        rw [walk_cons_protected cfg c del r s rest h1 h2]
        have := ih (r - 1)
        simp only [List.length_cons]
        omega
      | false =>
        by_cases h3 : s.StartTime < c
        · cases h4 : cfg.DRY_RUN with
          | true =>
            rw [walk_cons_dry_delete cfg c del r s rest h1 h2 h3 h4]
            have := ih (r - 1)
            simp only [List.length_cons]
            omega
          | false =>
            cases h5 : del s.SnapshotId with
            | success =>
              rw [walk_cons_live_success cfg c del r s rest h1 h2 h3 h4 h5]
              have := ih (r - 1)
              simp only [List.length_cons]
              omega
            | inUseError =>
              rw [walk_cons_live_inUse cfg c del r s rest h1 h2 h3 h4 h5]
              have := ih (r - 1)
              simp only [List.length_cons]
              omega
            | otherError =>
              rw [walk_cons_live_other cfg c del r s rest h1 h2 h3 h4 h5]
              have := ih (r - 1)
              simp only [List.length_cons]
              omega
        · rw [walk_cons_young cfg c del r s rest h1 h2 h3]
          have := ih (r - 1)
          simp only [List.length_cons]
          omega

/-- Once fewer than `remaining - MIN_SNAPSHOTS_TO_KEEP` snapshots have been
visited the min-count branch is reached, so every decision from position
`(r - MIN_SNAPSHOTS_TO_KEEP).toNat` on is `keepMinCount`. -/
theorem walk_decisions_drop (cfg : Config) (c : Int) (del : String → DeleteOutcome) :
    ∀ (l : List Snapshot) (r : Int) (d : Decision),
      d ∈ (walk cfg c del r l).decisions.drop
          (r - cfg.MIN_SNAPSHOTS_TO_KEEP).toNat →
      d = Decision.keepMinCount := by
  intro l
  induction l with
  | nil =>
    intro r d hd
    rw [walk_nil] at hd
    simp at hd
  | cons s rest ih =>
    intro r d hd
    by_cases h1 : r ≤ cfg.MIN_SNAPSHOTS_TO_KEEP
    · rw [walk_cons_min cfg c del r s rest h1,
          Int.toNat_of_nonpos (by omega)] at hd
      dsimp only at hd
      rw [List.drop_zero] at hd
      rcases List.mem_cons.mp hd with h | h
      · exact h
      · exact ih r d (by rwa [Int.toNat_of_nonpos (by omega), List.drop_zero])
    · obtain ⟨d0, -, hdec, -, -⟩ := walk_cons_notMin cfg c del r s rest h1
      have hk : (r - cfg.MIN_SNAPSHOTS_TO_KEEP).toNat =
          (r - 1 - cfg.MIN_SNAPSHOTS_TO_KEEP).toNat + 1 := by omega
      rw [hdec, hk, List.drop_succ_cons] at hd
      exact ih (r - 1) d hd

/-- Every `delete_snapshot` call made by the loop targets one of the first
`(r - MIN_SNAPSHOTS_TO_KEEP).toNat` snapshots visited. -/
theorem walk_calls_take (cfg : Config) (c : Int) (del : String → DeleteOutcome) :
    ∀ (l : List Snapshot) (r : Int) (x : String),
      x ∈ (walk cfg c del r l).calls →
      ∃ s ∈ l.take (r - cfg.MIN_SNAPSHOTS_TO_KEEP).toNat, s.SnapshotId = x := by
  intro l
  induction l with
  | nil =>
    intro r x hx
    rw [walk_nil] at hx
    simp at hx
  | cons s rest ih =>
    intro r x hx
    by_cases h1 : r ≤ cfg.MIN_SNAPSHOTS_TO_KEEP
    · rw [walk_cons_min cfg c del r s rest h1] at hx
      dsimp only at hx
      obtain ⟨s', hs', -⟩ := ih r x hx
      rw [Int.toNat_of_nonpos (by omega)] at hs'
      simp at hs'
    · obtain ⟨d0, -, -, hcalls, -⟩ := walk_cons_notMin cfg c del r s rest h1
      have hk : (r - cfg.MIN_SNAPSHOTS_TO_KEEP).toNat =
          (r - 1 - cfg.MIN_SNAPSHOTS_TO_KEEP).toNat + 1 := by omega
      rw [hk, List.take_succ_cons]
      rcases hcalls with hcl | hcl
      · rw [hcl] at hx
        obtain ⟨s', hs', hid⟩ := ih (r - 1) x hx
        exact ⟨s', List.mem_cons_of_mem s hs', hid⟩
      · rw [hcl] at hx
        rcases List.mem_cons.mp hx with h | h
        · exact ⟨s, List.mem_cons_self s _, h.symm⟩
        · obtain ⟨s', hs', hid⟩ := ih (r - 1) x h
          exact ⟨s', List.mem_cons_of_mem s hs', hid⟩

/-- Counting non-`keepMinCount` decisions ignores a `keepMinCount` head. -/
theorem countP_notMin_cons_self (l : List Decision) :
    (Decision.keepMinCount :: l).countP (fun d => decide (d ≠ Decision.keepMinCount)) =
      l.countP (fun d => decide (d ≠ Decision.keepMinCount)) := by
  rw [List.countP_cons]
  simp

/-- Counting non-`keepMinCount` decisions adds one for a non-`keepMinCount` head. -/
theorem countP_notMin_cons (d0 : Decision) (hne : d0 ≠ Decision.keepMinCount)
    (l : List Decision) :
    (d0 :: l).countP (fun d => decide (d ≠ Decision.keepMinCount)) =
      l.countP (fun d => decide (d ≠ Decision.keepMinCount)) + 1 := by
  rw [List.countP_cons]
  simp [hne]

/-- The `remaining` counter ends at its start value minus the number of
snapshots that took a branch other than the min-count one (that branch's
`continue` skips the decrement at line 157). -/
theorem walk_finalRemaining (cfg : Config) (c : Int) (del : String → DeleteOutcome) :
    ∀ (l : List Snapshot) (r : Int),
      (walk cfg c del r l).finalRemaining =
        r - ((walk cfg c del r l).decisions.countP
              (fun d => decide (d ≠ Decision.keepMinCount)) : Int) := by
  intro l
  induction l with
  | nil => intro r; simp [walk_nil]
  | cons s rest ih =>
    intro r
    by_cases h1 : r ≤ cfg.MIN_SNAPSHOTS_TO_KEEP
    · rw [walk_cons_min cfg c del r s rest h1]
      show (walk cfg c del r rest).finalRemaining =
        r - ((Decision.keepMinCount :: (walk cfg c del r rest).decisions).countP
              (fun d => decide (d ≠ Decision.keepMinCount)) : Int)
      rw [countP_notMin_cons_self]
      exact ih r
    · obtain ⟨d0, hne, hdec, -, hfin⟩ := walk_cons_notMin cfg c del r s rest h1
      rw [hfin, hdec, countP_notMin_cons d0 hne, ih (r - 1)]
      push_cast
      ring

/-- The `delete_snapshot` invocations of the loop: none in dry run, and in
live mode exactly the ids of the Delete-eligible snapshots, in visit order. -/
theorem walk_calls_eq (cfg : Config) (c : Int) (del : String → DeleteOutcome) :
    ∀ (l : List Snapshot) (r : Int),
      (walk cfg c del r l).calls =
        if cfg.DRY_RUN then [] else
          (l.zip (walk cfg c del r l).decisions).filterMap
            (fun p => if p.2 = Decision.delete then some p.1.SnapshotId else none) := by
  intro l
  induction l with
  | nil =>
    intro r
    rw [walk_nil]
    simp
  | cons s rest ih =>
    intro r
    by_cases h1 : r ≤ cfg.MIN_SNAPSHOTS_TO_KEEP
    · rw [walk_cons_min cfg c del r s rest h1]
      cases hD : cfg.DRY_RUN <;> simp [ih r, hD, List.filterMap_cons]
    · cases h2 : is_protected_snapshot cfg s with
      | true =>
        rw [walk_cons_protected cfg c del r s rest h1 h2]
        cases hD : cfg.DRY_RUN <;> simp [ih (r - 1), hD, List.filterMap_cons]
      | false =>
        by_cases h3 : s.StartTime < c
        · cases h4 : cfg.DRY_RUN with
          | true =>
            rw [walk_cons_dry_delete cfg c del r s rest h1 h2 h3 h4]
            simp [ih (r - 1), h4]
          | false =>
            cases h5 : del s.SnapshotId with
            | success =>
              rw [walk_cons_live_success cfg c del r s rest h1 h2 h3 h4 h5]
              simp [ih (r - 1), h4, List.filterMap_cons]
            | inUseError =>
              rw [walk_cons_live_inUse cfg c del r s rest h1 h2 h3 h4 h5]
              simp [ih (r - 1), h4, List.filterMap_cons]
            | otherError =>
              rw [walk_cons_live_other cfg c del r s rest h1 h2 h3 h4 h5]
              simp [ih (r - 1), h4, List.filterMap_cons]
        · rw [walk_cons_young cfg c del r s rest h1 h2 h3]
          cases hD : cfg.DRY_RUN <;> simp [ih (r - 1), hD, List.filterMap_cons]

/-! ### Unfolding lemmas for `process_volume_snapshots` -/

/-- The critical-volume short-circuit (lines 103–106). -/
theorem process_critical_eq (cfg : Config) (now : Int) (lookup : VolumeLookupResult)
    (del : String → DeleteOutcome) (volume_id : String) (snapshots : List Snapshot)
    (h1 : volume_id ≠ "unknown") (h2 : is_critical_volume cfg lookup = true) :
    process_volume_snapshots cfg now lookup del volume_id snapshots =
      { deleted := 0, protectedCnt := 0, critical := snapshots.length,
        tooFew := 0, tooYoung := 0, failedOther := 0,
        decisions := snapshots.map (fun _ => Decision.keepCritical), calls := [] } := by
  have hcond : (volume_id != "unknown" && is_critical_volume cfg lookup) = true := by
    simp [bne_iff_ne, h1, h2]
  simp [process_volume_snapshots, hcond]

/-- The critical-volume guard is false for the sentinel id or a non-critical
lookup (short-circuit `and` of line 103). -/
theorem process_guard_false (cfg : Config) (lookup : VolumeLookupResult)
    (volume_id : String)
    (hcrit : volume_id = "unknown" ∨ is_critical_volume cfg lookup = false) :
    (volume_id != "unknown" && is_critical_volume cfg lookup) = false := by
  rcases hcrit with h | h
  · simp [h]
  · simp [h]

/-- The minimum-count short-circuit (lines 109–113). -/
theorem process_few_eq (cfg : Config) (now : Int) (lookup : VolumeLookupResult)
    (del : String → DeleteOutcome) (volume_id : String) (snapshots : List Snapshot)
    (hcrit : volume_id = "unknown" ∨ is_critical_volume cfg lookup = false)
    (hlen : (snapshots.length : Int) ≤ cfg.MIN_SNAPSHOTS_TO_KEEP) :
    process_volume_snapshots cfg now lookup del volume_id snapshots =
      { deleted := 0, protectedCnt := 0, critical := 0,
        tooFew := snapshots.length, tooYoung := 0, failedOther := 0,
        decisions := snapshots.map (fun _ => Decision.keepMinCount), calls := [] } := by
  simp [process_volume_snapshots, process_guard_false cfg lookup volume_id hcrit, hlen]

/-- With both short-circuits inapplicable, `process_volume_snapshots` is the
per-snapshot loop with `remaining` initialised to the group size and the
cutoff at `now` minus `RETENTION_DAYS` days. -/
theorem process_walk_eq (cfg : Config) (now : Int) (lookup : VolumeLookupResult)
    (del : String → DeleteOutcome) (volume_id : String) (snapshots : List Snapshot)
    (hcrit : volume_id = "unknown" ∨ is_critical_volume cfg lookup = false)
    (hlen : ¬ (snapshots.length : Int) ≤ cfg.MIN_SNAPSHOTS_TO_KEEP) :
    process_volume_snapshots cfg now lookup del volume_id snapshots =
      { deleted := (walk cfg (now - cfg.RETENTION_DAYS * 86400) del
          (snapshots.length : Int) snapshots).deleted,
        protectedCnt := (walk cfg (now - cfg.RETENTION_DAYS * 86400) del
          (snapshots.length : Int) snapshots).protectedCnt,
        critical := 0,
        tooFew := (walk cfg (now - cfg.RETENTION_DAYS * 86400) del
          (snapshots.length : Int) snapshots).tooFew,
        tooYoung := (walk cfg (now - cfg.RETENTION_DAYS * 86400) del
          (snapshots.length : Int) snapshots).tooYoung,
        failedOther := (walk cfg (now - cfg.RETENTION_DAYS * 86400) del
          (snapshots.length : Int) snapshots).failedOther,
        decisions := (walk cfg (now - cfg.RETENTION_DAYS * 86400) del
          (snapshots.length : Int) snapshots).decisions,
        calls := (walk cfg (now - cfg.RETENTION_DAYS * 86400) del
          (snapshots.length : Int) snapshots).calls } := by
  simp [process_volume_snapshots, process_guard_false cfg lookup volume_id hcrit, hlen]

/-! ### Counting the whole run -/

/-- Inserting into the sort grows the list by one. -/
theorem length_insertByStartTime (s : Snapshot) :
    ∀ l : List Snapshot, (insertByStartTime s l).length = l.length + 1 := by
  intro l
  induction l with
  | nil => rfl
  | cons t rest ih =>
    by_cases h : t.StartTime < s.StartTime
    · simp [insertByStartTime, h, ih]
    · simp [insertByStartTime, h]

/-- Sorting a group does not change its size. -/
theorem length_sortByStartTime (l : List Snapshot) :
    (sortByStartTime l).length = l.length := by
  induction l with
  | nil => rfl
  | cons s rest ih =>
    show (insertByStartTime s (sortByStartTime rest)).length = rest.length + 1
    rw [length_insertByStartTime s (sortByStartTime rest), ih]

/-- Total number of snapshots held in a grouping. -/
def sumLens (gs : List (String × List Snapshot)) : Nat :=
  (gs.map (fun g => g.2.length)).sum

/-- Adding a snapshot to a grouping grows its total size by one. -/
theorem sumLens_addToGroup :
    ∀ (acc : List (String × List Snapshot)) (vid : String) (s : Snapshot),
      sumLens (addToGroup acc vid s) = sumLens acc + 1 := by
  intro acc
  induction acc with
  | nil => intro vid s; simp [addToGroup, sumLens]
  | cons g rest ih =>
    intro vid s
    obtain ⟨k, ss⟩ := g
    by_cases h : (k == vid) = true
    · simp [addToGroup, h, sumLens]
      omega
    · rw [Bool.not_eq_true] at h
      simp [addToGroup, h, sumLens]
      have := ih vid s
      simp [sumLens] at this
      omega

/-- The grouping partitions the inventory: group sizes sum to its length. -/
theorem group_by_volume_sumLens (l : List Snapshot) :
    sumLens (group_by_volume l) = l.length := by
  suffices h : ∀ (acc : List (String × List Snapshot)),
      sumLens (l.foldl (fun acc s => addToGroup acc (s.VolumeId.getD "unknown") s) acc) =
        sumLens acc + l.length by
    have := h []
    simpa [group_by_volume, sumLens] using this
  induction l with
  | nil => intro acc; simp
  | cons s rest ih =>
    intro acc
    rw [List.foldl_cons, ih, sumLens_addToGroup]
    simp
    omega

/-- Every snapshot of a volume lands in exactly one of the six buckets of the
full (trace-extended) result of `process_volume_snapshots`. -/
theorem process_counter_sum (cfg : Config) (now : Int) (lookup : VolumeLookupResult)
    (del : String → DeleteOutcome) (volume_id : String) (snapshots : List Snapshot) :
    (process_volume_snapshots cfg now lookup del volume_id snapshots).deleted +
      (process_volume_snapshots cfg now lookup del volume_id snapshots).protectedCnt +
      (process_volume_snapshots cfg now lookup del volume_id snapshots).critical +
      (process_volume_snapshots cfg now lookup del volume_id snapshots).tooFew +
      (process_volume_snapshots cfg now lookup del volume_id snapshots).tooYoung +
      (process_volume_snapshots cfg now lookup del volume_id snapshots).failedOther =
      snapshots.length := by
  by_cases hcond : (volume_id != "unknown" && is_critical_volume cfg lookup) = true
  · simp [process_volume_snapshots, hcond]
  · rw [Bool.not_eq_true] at hcond
    by_cases hlen : (snapshots.length : Int) ≤ cfg.MIN_SNAPSHOTS_TO_KEEP
    · simp [process_volume_snapshots, hcond, hlen]
    · simp only [process_volume_snapshots, hcond, Bool.false_eq_true, if_false,
        hlen, if_neg hlen]
      have := walk_counter_sum cfg (now - cfg.RETENTION_DAYS * 86400) del
        snapshots (snapshots.length : Int)
      omega

/-- Sum of all six aggregate counters of a run. -/
def totalsSum (t : RunTotals) : Nat :=
  t.deleted + t.protectedCnt + t.critical + t.tooFew + t.tooYoung + t.failedOther

theorem totalsSum_addTotals (t : RunTotals) (r : VolumeResult) :
    totalsSum (addTotals t r) = totalsSum t +
      (r.deleted + r.protectedCnt + r.critical + r.tooFew + r.tooYoung + r.failedOther) := by
  simp [totalsSum, addTotals]
  omega

/-- Folding the volume loop over any group list adds exactly the grouped
snapshot total to the accumulator. -/
theorem runTotals_foldl_sum (cfg : Config) (now : Int) (del : String → DeleteOutcome)
    (lookup : String → VolumeLookupResult) :
    ∀ (gs : List (String × List Snapshot)) (acc : RunTotals),
      totalsSum (gs.foldl
        (fun acc g => addTotals acc
          (process_volume_snapshots cfg now (lookup g.1) del g.1 (sortByStartTime g.2)))
        acc) = totalsSum acc + sumLens gs := by
  intro gs
  induction gs with
  | nil => intro acc; simp [sumLens]
  | cons g rest ih =>
    intro acc
    rw [List.foldl_cons, ih, totalsSum_addTotals]
    have hp := process_counter_sum cfg now (lookup g.1) del g.1 (sortByStartTime g.2)
    rw [length_sortByStartTime g.2] at hp
    simp [sumLens]
    omega

/-- The six aggregate counters of a run account for every snapshot of the
inventory exactly once. -/
theorem runTotals_sum (cfg : Config) (now : Int) (del : String → DeleteOutcome)
    (lookup : String → VolumeLookupResult) (snapshots : List Snapshot) :
    totalsSum (runTotals cfg now del lookup snapshots) = snapshots.length := by
  rw [runTotals, runTotals_foldl_sum, group_by_volume_sumLens]
  simp [totalsSum]

/-! ### Claim theorems -/

/-- C1: For every volume group processed by the retention evaluator (volume not
critical, count > `MIN_SNAPSHOTS_TO_KEEP`), the newest `MIN_SNAPSHOTS_TO_KEEP`
snapshots by creation time (the last ones of the ascending-sorted group) are
never classified Delete-eligible — they are all marked `keepMinCount` — and
every `delete_snapshot` invocation targets one of the older
`count - MIN_SNAPSHOTS_TO_KEEP` snapshots, for every combination of snapshot
ages and tags. -/
theorem C1_newest_min_never_delete_eligible (cfg : Config) (now : Int)
    (lookup : VolumeLookupResult) (del : String → DeleteOutcome)
    (volume_id : String) (snapshots : List Snapshot)
    (hsorted : snapshots.Pairwise (fun a b => a.StartTime ≤ b.StartTime))
    (hcrit : volume_id = "unknown" ∨ is_critical_volume cfg lookup = false)
    (hmin : 0 ≤ cfg.MIN_SNAPSHOTS_TO_KEEP)
    (hcount : cfg.MIN_SNAPSHOTS_TO_KEEP < (snapshots.length : Int)) :
    (∀ d ∈ (process_volume_snapshots cfg now lookup del volume_id snapshots).decisions.drop
        (snapshots.length - cfg.MIN_SNAPSHOTS_TO_KEEP.toNat),
      d = Decision.keepMinCount) ∧
    (∀ x ∈ (process_volume_snapshots cfg now lookup del volume_id snapshots).calls,
      x ∈ (snapshots.take (snapshots.length - cfg.MIN_SNAPSHOTS_TO_KEEP.toNat)).map
            Snapshot.SnapshotId) := by
  have hlen : ¬ (snapshots.length : Int) ≤ cfg.MIN_SNAPSHOTS_TO_KEEP := by omega
  rw [process_walk_eq cfg now lookup del volume_id snapshots hcrit hlen]
  have hidx : snapshots.length - cfg.MIN_SNAPSHOTS_TO_KEEP.toNat =
      ((snapshots.length : Int) - cfg.MIN_SNAPSHOTS_TO_KEEP).toNat := by omega
  constructor
  · intro d hd
    rw [hidx] at hd
    exact walk_decisions_drop cfg (now - cfg.RETENTION_DAYS * 86400) del
      snapshots (snapshots.length : Int) d hd
  · intro x hx
    obtain ⟨s, hs, hid⟩ := walk_calls_take cfg (now - cfg.RETENTION_DAYS * 86400) del
      snapshots (snapshots.length : Int) x hx
    rw [← hidx] at hs
    exact List.mem_map.mpr ⟨s, hs, hid⟩

/-- Four untagged snapshots of one volume, sorted oldest first, all old. -/
def w1snaps : List Snapshot :=
  [⟨"s1", some "v1", -8640000, none⟩, ⟨"s2", some "v1", -7776000, none⟩,
   ⟨"s3", some "v1", -6912000, none⟩, ⟨"s4", some "v1", -6048000, none⟩]

theorem C1_newest_min_never_delete_eligible_witness :
    (∀ d ∈ (process_volume_snapshots defaultConfig 0 (VolumeLookupResult.found none)
        (fun _ => DeleteOutcome.success) "v1" w1snaps).decisions.drop
        (w1snaps.length - defaultConfig.MIN_SNAPSHOTS_TO_KEEP.toNat),
      d = Decision.keepMinCount) ∧
    (∀ x ∈ (process_volume_snapshots defaultConfig 0 (VolumeLookupResult.found none)
        (fun _ => DeleteOutcome.success) "v1" w1snaps).calls,
      x ∈ (w1snaps.take (w1snaps.length - defaultConfig.MIN_SNAPSHOTS_TO_KEEP.toNat)).map
            Snapshot.SnapshotId) :=
  C1_newest_min_never_delete_eligible defaultConfig 0 (VolumeLookupResult.found none)
    (fun _ => DeleteOutcome.success) "v1" w1snaps (by decide)
    (Or.inr (by decide)) (by decide) (by decide)

/-- C2: For a volume whose lookup result matches the critical tag
(case-insensitively on the value), every snapshot of its group is marked
`keepCritical` and counted in the critical bucket, no per-snapshot logic runs
(all other counters stay zero) and no deletion is ever attempted; and for the
sentinel volume id "unknown" the critical branch is never taken, whatever the
lookup result would say. -/
theorem C2_critical_volume_short_circuit (cfg : Config) (now : Int)
    (lookup : VolumeLookupResult) (del : String → DeleteOutcome)
    (volume_id : String) (snapshots : List Snapshot)
    (hcrit : is_critical_volume cfg lookup = true) :
    (volume_id ≠ "unknown" →
      (process_volume_snapshots cfg now lookup del volume_id snapshots).critical =
        snapshots.length ∧
      (process_volume_snapshots cfg now lookup del volume_id snapshots).decisions =
        snapshots.map (fun _ => Decision.keepCritical) ∧
      (process_volume_snapshots cfg now lookup del volume_id snapshots).calls = [] ∧
      (process_volume_snapshots cfg now lookup del volume_id snapshots).deleted = 0 ∧
      (process_volume_snapshots cfg now lookup del volume_id snapshots).protectedCnt = 0 ∧
      (process_volume_snapshots cfg now lookup del volume_id snapshots).tooFew = 0) ∧
    (process_volume_snapshots cfg now lookup del "unknown" snapshots).critical = 0 := by
  constructor
  · intro hvid
    rw [process_critical_eq cfg now lookup del volume_id snapshots hvid hcrit]
    exact ⟨rfl, rfl, rfl, rfl, rfl, rfl⟩
  · by_cases hlen : (snapshots.length : Int) ≤ cfg.MIN_SNAPSHOTS_TO_KEEP
    · rw [process_few_eq cfg now lookup del "unknown" snapshots (Or.inl rfl) hlen]
    · rw [process_walk_eq cfg now lookup del "unknown" snapshots (Or.inl rfl) hlen]

theorem C2_critical_volume_short_circuit_witness :
    ((process_volume_snapshots defaultConfig 0
        (VolumeLookupResult.found (some [⟨"CriticalVolume", "True"⟩]))
        (fun _ => DeleteOutcome.success) "v1" w1snaps).critical = w1snaps.length ∧
      (process_volume_snapshots defaultConfig 0
        (VolumeLookupResult.found (some [⟨"CriticalVolume", "True"⟩]))
        (fun _ => DeleteOutcome.success) "v1" w1snaps).decisions =
        w1snaps.map (fun _ => Decision.keepCritical) ∧
      (process_volume_snapshots defaultConfig 0
        (VolumeLookupResult.found (some [⟨"CriticalVolume", "True"⟩]))
        (fun _ => DeleteOutcome.success) "v1" w1snaps).calls = [] ∧
      (process_volume_snapshots defaultConfig 0
        (VolumeLookupResult.found (some [⟨"CriticalVolume", "True"⟩]))
        (fun _ => DeleteOutcome.success) "v1" w1snaps).deleted = 0 ∧
      (process_volume_snapshots defaultConfig 0
        (VolumeLookupResult.found (some [⟨"CriticalVolume", "True"⟩]))
        (fun _ => DeleteOutcome.success) "v1" w1snaps).protectedCnt = 0 ∧
      (process_volume_snapshots defaultConfig 0
        (VolumeLookupResult.found (some [⟨"CriticalVolume", "True"⟩]))
        (fun _ => DeleteOutcome.success) "v1" w1snaps).tooFew = 0) ∧
    (process_volume_snapshots defaultConfig 0
        (VolumeLookupResult.found (some [⟨"CriticalVolume", "True"⟩]))
        (fun _ => DeleteOutcome.success) "unknown" w1snaps).critical = 0 := by
  have T := C2_critical_volume_short_circuit defaultConfig 0
    (VolumeLookupResult.found (some [⟨"CriticalVolume", "True"⟩]))
    (fun _ => DeleteOutcome.success) "v1" w1snaps (by decide)
  exact ⟨T.1 (by decide), T.2⟩

/-- C3: The criticality check treats a "volume not found" error and an empty
volume result as not critical, and any other cloud-API error as critical
(fail safe), so a transient lookup error causes all of that volume's
snapshots to be kept and none to be deleted. -/
theorem C3_lookup_error_fail_safe (cfg : Config) (now : Int)
    (del : String → DeleteOutcome) (volume_id : String) (snapshots : List Snapshot) :
    is_critical_volume cfg VolumeLookupResult.notFoundError = false ∧
    is_critical_volume cfg VolumeLookupResult.empty = false ∧
    is_critical_volume cfg VolumeLookupResult.otherError = true ∧
    (volume_id ≠ "unknown" →
      (process_volume_snapshots cfg now VolumeLookupResult.otherError del
        volume_id snapshots).critical = snapshots.length ∧
      (process_volume_snapshots cfg now VolumeLookupResult.otherError del
        volume_id snapshots).calls = [] ∧
      (process_volume_snapshots cfg now VolumeLookupResult.otherError del
        volume_id snapshots).deleted = 0) := by
  refine ⟨rfl, rfl, rfl, fun hvid => ?_⟩
  rw [process_critical_eq cfg now VolumeLookupResult.otherError del
    volume_id snapshots hvid rfl]
  exact ⟨rfl, rfl, rfl⟩

theorem C3_lookup_error_fail_safe_witness :
    is_critical_volume defaultConfig VolumeLookupResult.notFoundError = false ∧
    is_critical_volume defaultConfig VolumeLookupResult.empty = false ∧
    is_critical_volume defaultConfig VolumeLookupResult.otherError = true ∧
    ((process_volume_snapshots defaultConfig 0 VolumeLookupResult.otherError
        (fun _ => DeleteOutcome.success) "v1" w1snaps).critical = w1snaps.length ∧
      (process_volume_snapshots defaultConfig 0 VolumeLookupResult.otherError
        (fun _ => DeleteOutcome.success) "v1" w1snaps).calls = [] ∧
      (process_volume_snapshots defaultConfig 0 VolumeLookupResult.otherError
        (fun _ => DeleteOutcome.success) "v1" w1snaps).deleted = 0) := by
  have T := C3_lookup_error_fail_safe defaultConfig 0
    (fun _ => DeleteOutcome.success) "v1" w1snaps
  exact ⟨T.1, T.2.1, T.2.2.1, T.2.2.2 (by decide)⟩

/-- C4: A snapshot carrying the protected tag (value matching
case-insensitively) that is visited while `remaining > MIN_SNAPSHOTS_TO_KEEP`
is marked `keepProtectedTag`, counted as protected, and no deletion is
attempted for it — the statement holds for every `StartTime`, in particular
when the snapshot is older than the retention cutoff. -/
theorem C4_protected_tag_never_deleted (cfg : Config) (cutoff_date : Int)
    (del : String → DeleteOutcome) (remaining : Int) (s : Snapshot)
    (rest : List Snapshot)
    (hr : cfg.MIN_SNAPSHOTS_TO_KEEP < remaining)
    (hp : is_protected_snapshot cfg s = true) :
    (walk cfg cutoff_date del remaining (s :: rest)).decisions =
      Decision.keepProtectedTag ::
        (walk cfg cutoff_date del (remaining - 1) rest).decisions ∧
    (walk cfg cutoff_date del remaining (s :: rest)).protectedCnt =
      (walk cfg cutoff_date del (remaining - 1) rest).protectedCnt + 1 ∧
    (walk cfg cutoff_date del remaining (s :: rest)).calls =
      (walk cfg cutoff_date del (remaining - 1) rest).calls ∧
    (walk cfg cutoff_date del remaining (s :: rest)).deleted =
      (walk cfg cutoff_date del (remaining - 1) rest).deleted := by
  rw [walk_cons_protected cfg cutoff_date del remaining s rest (not_le.mpr hr) hp]
  exact ⟨rfl, rfl, rfl, rfl⟩

/-- An old snapshot carrying the protected tag with a case-different value. -/
def protSnap : Snapshot := ⟨"sp", some "v1", -8640000, some [⟨"ProtectSnapshot", "TRUE"⟩]⟩

theorem C4_protected_tag_never_deleted_witness :
    (walk defaultConfig (-2592000) (fun _ => DeleteOutcome.success) 5
        (protSnap :: w1snaps)).decisions =
      Decision.keepProtectedTag ::
        (walk defaultConfig (-2592000) (fun _ => DeleteOutcome.success) 4 w1snaps).decisions ∧
    (walk defaultConfig (-2592000) (fun _ => DeleteOutcome.success) 5
        (protSnap :: w1snaps)).protectedCnt =
      (walk defaultConfig (-2592000) (fun _ => DeleteOutcome.success) 4 w1snaps).protectedCnt + 1 ∧
    (walk defaultConfig (-2592000) (fun _ => DeleteOutcome.success) 5
        (protSnap :: w1snaps)).calls =
      (walk defaultConfig (-2592000) (fun _ => DeleteOutcome.success) 4 w1snaps).calls ∧
    (walk defaultConfig (-2592000) (fun _ => DeleteOutcome.success) 5
        (protSnap :: w1snaps)).deleted =
      (walk defaultConfig (-2592000) (fun _ => DeleteOutcome.success) 4 w1snaps).deleted :=
  C4_protected_tag_never_deleted defaultConfig (-2592000)
    (fun _ => DeleteOutcome.success) 5 protSnap w1snaps (by decide) (by decide)

/-- C5: For a non-critical volume whose snapshot count is at most
`MIN_SNAPSHOTS_TO_KEEP`, the evaluator short-circuits: zero deletions, no
snapshot evaluated individually, every snapshot marked `keepMinCount` and
counted in the too-few bucket. -/
theorem C5_too_few_short_circuit (cfg : Config) (now : Int)
    (lookup : VolumeLookupResult) (del : String → DeleteOutcome)
    (volume_id : String) (snapshots : List Snapshot)
    (hcrit : volume_id = "unknown" ∨ is_critical_volume cfg lookup = false)
    (hlen : (snapshots.length : Int) ≤ cfg.MIN_SNAPSHOTS_TO_KEEP) :
    (process_volume_snapshots cfg now lookup del volume_id snapshots).deleted = 0 ∧
    (process_volume_snapshots cfg now lookup del volume_id snapshots).protectedCnt = 0 ∧
    (process_volume_snapshots cfg now lookup del volume_id snapshots).critical = 0 ∧
    (process_volume_snapshots cfg now lookup del volume_id snapshots).tooFew =
      snapshots.length ∧
    (process_volume_snapshots cfg now lookup del volume_id snapshots).decisions =
      snapshots.map (fun _ => Decision.keepMinCount) ∧
    (process_volume_snapshots cfg now lookup del volume_id snapshots).calls = [] := by
  rw [process_few_eq cfg now lookup del volume_id snapshots hcrit hlen]
  exact ⟨rfl, rfl, rfl, rfl, rfl, rfl⟩

/-- Two old untagged snapshots of one volume. -/
def fewSnaps : List Snapshot :=
  [⟨"f1", some "v1", -8640000, none⟩, ⟨"f2", some "v1", -7776000, none⟩]

theorem C5_too_few_short_circuit_witness :
    (process_volume_snapshots defaultConfig 0 (VolumeLookupResult.found none)
      (fun _ => DeleteOutcome.success) "v1" fewSnaps).deleted = 0 ∧
    (process_volume_snapshots defaultConfig 0 (VolumeLookupResult.found none)
      (fun _ => DeleteOutcome.success) "v1" fewSnaps).protectedCnt = 0 ∧
    (process_volume_snapshots defaultConfig 0 (VolumeLookupResult.found none)
      (fun _ => DeleteOutcome.success) "v1" fewSnaps).critical = 0 ∧
    (process_volume_snapshots defaultConfig 0 (VolumeLookupResult.found none)
      (fun _ => DeleteOutcome.success) "v1" fewSnaps).tooFew = fewSnaps.length ∧
    (process_volume_snapshots defaultConfig 0 (VolumeLookupResult.found none)
      (fun _ => DeleteOutcome.success) "v1" fewSnaps).decisions =
      fewSnaps.map (fun _ => Decision.keepMinCount) ∧
    (process_volume_snapshots defaultConfig 0 (VolumeLookupResult.found none)
      (fun _ => DeleteOutcome.success) "v1" fewSnaps).calls = [] :=
  C5_too_few_short_circuit defaultConfig 0 (VolumeLookupResult.found none)
    (fun _ => DeleteOutcome.success) "v1" fewSnaps (Or.inr (by decide)) (by decide)

/-- Config with a minimum of one snapshot to keep. -/
def cfg6 : Config := { defaultConfig with MIN_SNAPSHOTS_TO_KEEP := 1 }

/-- Two young untagged snapshots of one volume, oldest first. -/
def snaps6 : List Snapshot :=
  [⟨"a", some "v", -100, none⟩, ⟨"b", some "v", 0, none⟩]

/-- C6 is false of the code: with `MIN_SNAPSHOTS_TO_KEEP = 1` and two young
snapshots, the first visit takes the too-young branch (decrement) and the
second takes the min-count branch, whose `continue` skips the decrement at
line 157 — so after visiting both snapshots `remaining` is `1`, not
`total - 2 = 0`. -/
theorem C6_counterexample_min_branch_skips_decrement :
    ¬ ((walk cfg6 (0 - cfg6.RETENTION_DAYS * 86400) (fun _ => DeleteOutcome.success)
        (snaps6.length : Int) (snaps6.take 2)).finalRemaining =
       (snaps6.length : Int) - 2) := by decide

/-- C6 (amended): during the per-snapshot walk the `remaining` counter starts
at the group's total count and is decremented exactly once per snapshot
visited through the `keepProtectedTag`, `delete` or `keepTooYoung` branches,
while the `keepMinCount` branch skips the decrement (`continue` before line
157); so after visiting the first `k` snapshots, `remaining` equals the total
minus the number of those visits whose decision is not `keepMinCount`. -/
theorem C6_remaining_counts_non_min_visits (cfg : Config) (cutoff_date : Int)
    (del : String → DeleteOutcome) (snapshots : List Snapshot) (k : Nat) :
    (walk cfg cutoff_date del (snapshots.length : Int) (snapshots.take k)).finalRemaining =
      (snapshots.length : Int) -
        ((walk cfg cutoff_date del (snapshots.length : Int)
            (snapshots.take k)).decisions.countP
          (fun d => decide (d ≠ Decision.keepMinCount)) : Int) :=
  walk_finalRemaining cfg cutoff_date del (snapshots.take k) (snapshots.length : Int)

/-- C7: a deletion failure with an in-use error counts the snapshot as
protected (not deleted) and the walk continues; any other deletion error
leaves the snapshot out of the `deleted`, `protected` and `too_few` buckets
(in the loop no snapshot can reach the critical bucket at all) and the walk
continues; and only the inventory-fetch failure yields status 500 — a
successful fetch always returns 200, whatever the per-snapshot outcomes. -/
theorem C7_delete_failure_handling (cfg : Config) (cutoff_date now : Int)
    (del : String → DeleteOutcome) (lookup : String → VolumeLookupResult) :
    (∀ (remaining : Int) (s : Snapshot) (rest : List Snapshot),
      cfg.MIN_SNAPSHOTS_TO_KEEP < remaining →
      is_protected_snapshot cfg s = false →
      s.StartTime < cutoff_date →
      cfg.DRY_RUN = false →
      del s.SnapshotId = DeleteOutcome.inUseError →
      (walk cfg cutoff_date del remaining (s :: rest)).protectedCnt =
        (walk cfg cutoff_date del (remaining - 1) rest).protectedCnt + 1 ∧
      (walk cfg cutoff_date del remaining (s :: rest)).deleted =
        (walk cfg cutoff_date del (remaining - 1) rest).deleted ∧
      (walk cfg cutoff_date del remaining (s :: rest)).decisions =
        Decision.delete :: (walk cfg cutoff_date del (remaining - 1) rest).decisions) ∧
    (∀ (remaining : Int) (s : Snapshot) (rest : List Snapshot),
      cfg.MIN_SNAPSHOTS_TO_KEEP < remaining →
      is_protected_snapshot cfg s = false →
      s.StartTime < cutoff_date →
      cfg.DRY_RUN = false →
      del s.SnapshotId = DeleteOutcome.otherError →
      (walk cfg cutoff_date del remaining (s :: rest)).deleted =
        (walk cfg cutoff_date del (remaining - 1) rest).deleted ∧
      (walk cfg cutoff_date del remaining (s :: rest)).protectedCnt =
        (walk cfg cutoff_date del (remaining - 1) rest).protectedCnt ∧
      (walk cfg cutoff_date del remaining (s :: rest)).tooFew =
        (walk cfg cutoff_date del (remaining - 1) rest).tooFew ∧
      (walk cfg cutoff_date del remaining (s :: rest)).decisions =
        Decision.delete :: (walk cfg cutoff_date del (remaining - 1) rest).decisions) ∧
    (∀ e : String, lambda_handler cfg now del lookup (Except.error e) =
      { statusCode := 500, body := none }) ∧
    (∀ snapshots : List Snapshot,
      (lambda_handler cfg now del lookup (Except.ok snapshots)).statusCode = 200) := by
  refine ⟨?_, ?_, fun e => rfl, fun snapshots => rfl⟩
  · intro remaining s rest h1 h2 h3 h4 h5
    rw [walk_cons_live_inUse cfg cutoff_date del remaining s rest
      (not_le.mpr h1) h2 h3 h4 h5]
    exact ⟨rfl, rfl, rfl⟩
  · intro remaining s rest h1 h2 h3 h4 h5
    rw [walk_cons_live_other cfg cutoff_date del remaining s rest
      (not_le.mpr h1) h2 h3 h4 h5]
    exact ⟨rfl, rfl, rfl, rfl⟩

/-- Live-mode config. -/
def cfg7 : Config := { defaultConfig with DRY_RUN := false }

/-- Deletion collaborator that reports snapshot "a" in use and fails
otherwise. -/
def del7 : String → DeleteOutcome :=
  fun sid => if sid == "a" then DeleteOutcome.inUseError else DeleteOutcome.otherError

/-- Old untagged snapshot with id "a". -/
def snapA : Snapshot := ⟨"a", some "v", -9999999, none⟩

/-- Old untagged snapshot with id "b". -/
def snapB : Snapshot := ⟨"b", some "v", -9999999, none⟩

theorem C7_delete_failure_handling_witness :
    ((walk cfg7 (-2592000) del7 5 (snapA :: w1snaps)).protectedCnt =
        (walk cfg7 (-2592000) del7 4 w1snaps).protectedCnt + 1 ∧
      (walk cfg7 (-2592000) del7 5 (snapA :: w1snaps)).deleted =
        (walk cfg7 (-2592000) del7 4 w1snaps).deleted ∧
      (walk cfg7 (-2592000) del7 5 (snapA :: w1snaps)).decisions =
        Decision.delete :: (walk cfg7 (-2592000) del7 4 w1snaps).decisions) ∧
    ((walk cfg7 (-2592000) del7 5 (snapB :: w1snaps)).deleted =
        (walk cfg7 (-2592000) del7 4 w1snaps).deleted ∧
      (walk cfg7 (-2592000) del7 5 (snapB :: w1snaps)).protectedCnt =
        (walk cfg7 (-2592000) del7 4 w1snaps).protectedCnt ∧
      (walk cfg7 (-2592000) del7 5 (snapB :: w1snaps)).tooFew =
        (walk cfg7 (-2592000) del7 4 w1snaps).tooFew ∧
      (walk cfg7 (-2592000) del7 5 (snapB :: w1snaps)).decisions =
        Decision.delete :: (walk cfg7 (-2592000) del7 4 w1snaps).decisions) ∧
    lambda_handler cfg7 0 del7 (fun _ => VolumeLookupResult.empty)
      (Except.error "boom") = { statusCode := 500, body := none } ∧
    (lambda_handler cfg7 0 del7 (fun _ => VolumeLookupResult.empty)
      (Except.ok [snapA])).statusCode = 200 := by
  have T := C7_delete_failure_handling cfg7 (-2592000) 0 del7
    (fun _ => VolumeLookupResult.empty)
  exact ⟨T.1 5 snapA w1snaps (by decide) (by decide) (by decide) (by decide) (by decide),
    T.2.1 5 snapB w1snaps (by decide) (by decide) (by decide) (by decide) (by decide),
    T.2.2.1 "boom", T.2.2.2 [snapA]⟩

/-- Pairing a snapshot list with one constant non-delete decision each never
yields a deletion target. -/
theorem filterMap_zip_const (d : Decision) (hd : d ≠ Decision.delete) :
    ∀ l : List Snapshot,
      (l.zip (l.map (fun _ => d))).filterMap
        (fun p => if p.2 = Decision.delete then some p.1.SnapshotId else none) = [] := by
  intro l
  induction l with
  | nil => rfl
  | cons s rest ih =>
    simp only [List.map_cons, List.zip_cons_cons, List.filterMap_cons, hd, ite_false]
    exact ih

/-- C8: in dry-run mode `delete_snapshot` is never invoked; in live mode it is
invoked exactly once per Delete-eligible snapshot (in visit order) and for no
other snapshot. -/
theorem C8_calls_exactly_delete_eligible (cfg : Config) (now : Int)
    (lookup : VolumeLookupResult) (del : String → DeleteOutcome)
    (volume_id : String) (snapshots : List Snapshot) :
    (process_volume_snapshots cfg now lookup del volume_id snapshots).calls =
      if cfg.DRY_RUN then [] else
        (snapshots.zip
          (process_volume_snapshots cfg now lookup del volume_id snapshots).decisions).filterMap
          (fun p => if p.2 = Decision.delete then some p.1.SnapshotId else none) := by
  by_cases hcond : (volume_id != "unknown" && is_critical_volume cfg lookup) = true
  · rw [Bool.and_eq_true, bne_iff_ne] at hcond
    obtain ⟨hv, hc⟩ := hcond
    rw [process_critical_eq cfg now lookup del volume_id snapshots hv hc]
    rw [filterMap_zip_const Decision.keepCritical (by simp) snapshots]
    simp
  · rw [Bool.not_eq_true] at hcond
    have hcrit : volume_id = "unknown" ∨ is_critical_volume cfg lookup = false := by
      rcases Bool.and_eq_false_iff.mp hcond with h | h
      · left
        simpa [bne_iff_ne] using h
      · right
        exact h
    by_cases hlen : (snapshots.length : Int) ≤ cfg.MIN_SNAPSHOTS_TO_KEEP
    · rw [process_few_eq cfg now lookup del volume_id snapshots hcrit hlen]
      rw [filterMap_zip_const Decision.keepMinCount (by simp) snapshots]
      simp
    · rw [process_walk_eq cfg now lookup del volume_id snapshots hcrit hlen]
      exact walk_calls_eq cfg (now - cfg.RETENTION_DAYS * 86400) del
        snapshots (snapshots.length : Int)

/-- The five snapshots of the spec scenario: ages 60, 45, 20, 10 and 1 days
at `now = 0`, untagged, one volume, oldest first. -/
def snaps9 : List Snapshot :=
  [⟨"snap-1", some "vol-1", -5184000, none⟩, ⟨"snap-2", some "vol-1", -3888000, none⟩,
   ⟨"snap-3", some "vol-1", -1728000, none⟩, ⟨"snap-4", some "vol-1", -864000, none⟩,
   ⟨"snap-5", some "vol-1", -86400, none⟩]

/-- C9: with `RETENTION_DAYS = 30` and `MIN_SNAPSHOTS_TO_KEEP = 3`, the
60-day and 45-day snapshots are Delete-eligible and the 20-, 10- and 1-day
snapshots are marked `keepMinCount`. -/
theorem C9_five_snapshot_scenario :
    (process_volume_snapshots defaultConfig 0 (VolumeLookupResult.found none)
        (fun _ => DeleteOutcome.success) "vol-1" snaps9).decisions =
      [Decision.delete, Decision.delete, Decision.keepMinCount,
       Decision.keepMinCount, Decision.keepMinCount] ∧
    (process_volume_snapshots defaultConfig 0 (VolumeLookupResult.found none)
        (fun _ => DeleteOutcome.success) "vol-1" snaps9).deleted = 2 ∧
    (process_volume_snapshots defaultConfig 0 (VolumeLookupResult.found none)
        (fun _ => DeleteOutcome.success) "vol-1" snaps9).tooFew = 3 ∧
    (process_volume_snapshots defaultConfig 0 (VolumeLookupResult.found none)
        (fun _ => DeleteOutcome.success) "vol-1" snaps9).protectedCnt = 0 := by
  decide

/-- C10: over a whole run, the four summary counters account for at most the
inventory size; together with the uncounted too-young and failed-delete
snapshots they account for it exactly, so the bound is strict as soon as one
snapshot is kept only for being young or fails deletion with a non-in-use
error (the summary has no bucket for either). -/
theorem C10_summary_bounded_by_inventory (cfg : Config) (now : Int)
    (del : String → DeleteOutcome) (lookup : String → VolumeLookupResult)
    (snapshots : List Snapshot) :
    (lambda_handler cfg now del lookup (Except.ok snapshots)).body =
      some { dry_run := cfg.DRY_RUN,
             deleted_snapshots := (runTotals cfg now del lookup snapshots).deleted,
             protected_snapshots := (runTotals cfg now del lookup snapshots).protectedCnt,
             critical_volume_snapshots := (runTotals cfg now del lookup snapshots).critical,
             too_few_snapshots := (runTotals cfg now del lookup snapshots).tooFew,
             retention_days := cfg.RETENTION_DAYS,
             min_snapshots_per_volume := cfg.MIN_SNAPSHOTS_TO_KEEP } ∧
    (runTotals cfg now del lookup snapshots).deleted +
      (runTotals cfg now del lookup snapshots).protectedCnt +
      (runTotals cfg now del lookup snapshots).critical +
      (runTotals cfg now del lookup snapshots).tooFew ≤ snapshots.length ∧
    (0 < (runTotals cfg now del lookup snapshots).tooYoung +
          (runTotals cfg now del lookup snapshots).failedOther →
      (runTotals cfg now del lookup snapshots).deleted +
        (runTotals cfg now del lookup snapshots).protectedCnt +
        (runTotals cfg now del lookup snapshots).critical +
        (runTotals cfg now del lookup snapshots).tooFew < snapshots.length) := by
  have h := runTotals_sum cfg now del lookup snapshots
  rw [totalsSum] at h
  exact ⟨rfl, by omega, fun hpos => by omega⟩

/-- Config that keeps no minimum, so a lone young snapshot reaches the
too-young branch. -/
def cfg10 : Config := { defaultConfig with MIN_SNAPSHOTS_TO_KEEP := 0 }

/-- A one-snapshot inventory whose snapshot is younger than the cutoff. -/
def snaps10 : List Snapshot := [⟨"s", some "v", 0, none⟩]

theorem C10_summary_bounded_by_inventory_witness :
    0 < (runTotals cfg10 0 (fun _ => DeleteOutcome.success)
          (fun _ => VolumeLookupResult.empty) snaps10).tooYoung +
        (runTotals cfg10 0 (fun _ => DeleteOutcome.success)
          (fun _ => VolumeLookupResult.empty) snaps10).failedOther ∧
    (runTotals cfg10 0 (fun _ => DeleteOutcome.success)
        (fun _ => VolumeLookupResult.empty) snaps10).deleted +
      (runTotals cfg10 0 (fun _ => DeleteOutcome.success)
        (fun _ => VolumeLookupResult.empty) snaps10).protectedCnt +
      (runTotals cfg10 0 (fun _ => DeleteOutcome.success)
        (fun _ => VolumeLookupResult.empty) snaps10).critical +
      (runTotals cfg10 0 (fun _ => DeleteOutcome.success)
        (fun _ => VolumeLookupResult.empty) snaps10).tooFew < snaps10.length :=
  ⟨by decide,
   (C10_summary_bounded_by_inventory cfg10 0 (fun _ => DeleteOutcome.success)
     (fun _ => VolumeLookupResult.empty) snaps10).2.2 (by decide)⟩

end Ebs
